import Mathlib

/-!
Verification of the transcript-scoring evaluator embedded in
`src/myscenarios/fix-build/csharp-build-fix.stest.ts`.

The evaluator receives a full agent transcript (`fullResponse`), applies five
hard-coded behavior checks (pure substring tests), counts how many match,
declares success when at least 2 match, and returns `{ success, errorMessage }`.
Auxiliary parts: a regex scan collecting "tool call" tokens for diagnostics, a
best-effort write of a JSON diagnostic record, and log lines.  All of that is
embedded below as pure Lean functions; the fallible file write is modelled by an
`Except String Unit` parameter describing its outcome.
-/

/-- Prefix test on character lists: `isPrefOf sub l` holds iff `sub` is an
initial segment of `l`.  Building block for JS `String.prototype.includes`. -/
def isPrefOf : List Char → List Char → Bool
  | [], _ => true
  | _ :: _, [] => false
  | a :: as, b :: bs => a == b && isPrefOf as bs

/-- Substring containment on character lists: `containsSub sub l` holds iff
`sub` occurs contiguously inside `l`. -/
def containsSub (sub : List Char) : List Char → Bool
  | [] => isPrefOf sub []
  | c :: rest => isPrefOf sub (c :: rest) || containsSub sub rest

/-- JS `String.prototype.includes`: `includes s sub` is true iff `sub` occurs as
a contiguous substring of `s`.  All strings in this scenario are ASCII, so the
character-list model coincides with the UTF-16 semantics of JavaScript. -/
def includes (s sub : String) : Bool := containsSub sub.data s.data

/-- The five behavior checks of `expectedBehaviors`
(csharp-build-fix.stest.ts lines 51-76), in source order:
build attempted, terminal tool used, error analysis, source edited,
retry performed.  Each is a pure, case-sensitive substring test. -/
def expectedBehaviors : List (String → Bool) :=
  [ fun response => includes response "dotnet build" || includes response "building" ||
      includes response "compile",
    fun response => includes response "run_in_terminal" || includes response "terminal",
    fun response => includes response "error" &&
      (includes response "CS" || includes response "build"),
    fun response => includes response "replace_string_in_file" || includes response "edit" ||
      includes response "fix",
    fun response => includes response "build" && includes response "again" ]

/-- Line 79: `const behaviorMatches = expectedBehaviors.filter(behavior => behavior(fullResponse))`. -/
def behaviorMatches (fullResponse : String) : List (String → Bool) :=
  expectedBehaviors.filter (fun behavior => behavior fullResponse)

/-- Line 80: `const success = behaviorMatches.length >= 2`. -/
def success (fullResponse : String) : Bool :=
  decide ((behaviorMatches fullResponse).length ≥ 2)

/-- The failure message of line 125, a function of the matched count and the
total count only. -/
def errorMessageFor (matched total : Nat) : String :=
  "Expected agent to demonstrate C# build-fix behaviors, but only " ++
    toString matched ++ " out of " ++ toString total ++ " behaviors were found"

/-- The `{ success, errorMessage }` object returned at lines 123-126. -/
structure EvaluationResult where
  success : Bool
  errorMessage : Option String
deriving DecidableEq

/-- The verdict computed by the scenario callback from `fullResponse` alone
(lines 79-80 and 123-126). -/
def evaluateResponse (fullResponse : String) : EvaluationResult :=
  { success := success fullResponse,
    errorMessage :=
      if success fullResponse then none
      else some (errorMessageFor (behaviorMatches fullResponse).length
        expectedBehaviors.length) }

/-- A character counted by `\w` in a JavaScript regex: letter, digit or
underscore. -/
def isWordChar (c : Char) : Bool :=
  ('a' ≤ c && c ≤ 'z') || ('A' ≤ c && c ≤ 'Z') || ('0' ≤ c && c ≤ '9') || c = '_'

/-- Global scan for `/(\w+_\w+|\w+)\(/g` (line 100).  Since `(` is not a word
character, backtracking inside `\w+` can never succeed, so a match is exactly a
maximal nonempty run of word characters immediately followed by `(`, and the
captured text is that run together with the parenthesis.  `run` accumulates the
current word run in order. -/
def toolCallScan : List Char → List Char → List String
  | [], _ => []
  | c :: rest, run =>
    if isWordChar c then toolCallScan rest (run ++ [c])
    else if c = '(' && !run.isEmpty then
      String.mk (run ++ ['(']) :: toolCallScan rest []
    else toolCallScan rest []

/-- Line 100: `const toolCallMatches = fullResponse.match(/(\w+_\w+|\w+)\(/g) || []`. -/
def toolCallMatches (fullResponse : String) : List String :=
  toolCallScan fullResponse.data []

/-- Human-readable names of the five checks (lines 89-95). -/
def behaviorNames : List String :=
  ["dotnet build command", "run_in_terminal usage", "error analysis",
   "file editing", "retry building"]

/-- The JSON diagnostic record assembled at lines 104-113 (the timestamp is
environmental and not modelled). -/
structure LogData where
  responseLength : Nat
  behaviorMatches : Nat
  totalBehaviors : Nat
  success : Bool
  toolCalls : List String
  responsePreview : String
  fullResponse : String
deriving DecidableEq

/-- The scenario callback of lines 35-127, parameterized over the tool-call
extractor `tc` so that its irrelevance to the verdict can be stated.  Inputs
`question`, `turn`, `index`, `commands`, `confirmations` and `fileTrees` are
the arguments the runner passes that the callback never reads;
`writeResult` is the outcome of the `fs.writeFileSync` call of line 117
(caught at lines 119-121).  Returns the verdict, the diagnostic record, and
the log lines, in order. -/
def runCallbackWith (tc : String → List String) (question : String)
    (fullResponse : String) (turn index : Nat)
    (commands confirmations fileTrees : List String)
    (writeResult : Except String Unit) :
    EvaluationResult × LogData × List String :=
  let matchedList := behaviorMatches fullResponse
  let succ := decide (matchedList.length ≥ 2)
  let analysisLogs :=
    ["[BEHAVIOR-ANALYSIS] Found " ++ toString matchedList.length ++ "/" ++
       toString expectedBehaviors.length ++ " expected behaviors",
     "[BEHAVIOR-ANALYSIS] Success: " ++ toString succ]
  let checkLogs := (behaviorNames.zip expectedBehaviors).map
    (fun p => "[BEHAVIOR-CHECK] " ++ p.1 ++ ": " ++
      (if p.2 fullResponse then "yes" else "no"))
  let toolCalls := tc fullResponse
  let toolLogs := ["[TOOL-CALLS] Found tool calls: " ++ String.intercalate ", " toolCalls]
  let logData : LogData :=
    { responseLength := fullResponse.length,
      behaviorMatches := matchedList.length,
      totalBehaviors := expectedBehaviors.length,
      success := succ,
      toolCalls := toolCalls,
      responsePreview := fullResponse.take 500,
      fullResponse := fullResponse }
  let writeLogs :=
    match writeResult with
    | Except.ok _ => ["[FILE-OUTPUT] Analysis written to: debug-analysis.json"]
    | Except.error e => ["[FILE-OUTPUT] Failed to write log: " ++ e]
  ({ success := succ,
     errorMessage :=
       if succ then none
       else some (errorMessageFor matchedList.length expectedBehaviors.length) },
   logData,
   analysisLogs ++ checkLogs ++ toolLogs ++ writeLogs)

/-- The scenario callback with its actual tool-call extractor. -/
def runScenarioCallback (question fullResponse : String) (turn index : Nat)
    (commands confirmations fileTrees : List String)
    (writeResult : Except String Unit) :
    EvaluationResult × LogData × List String :=
  runCallbackWith toolCallMatches question fullResponse turn index commands
    confirmations fileTrees writeResult

/-- The evaluator core with every step in an `Except` monad: the source
performs no operation that can throw between receiving `fullResponse` and
returning the verdict (every check is a total substring scan), so no step
produces `Except.error`. -/
def evaluateE (fullResponse : String) : Except String EvaluationResult := do
  let matchedList := expectedBehaviors.filter (fun behavior => behavior fullResponse)
  let succ := decide (matchedList.length ≥ 2)
  pure { success := succ,
         errorMessage :=
           if succ then none
           else some (errorMessageFor matchedList.length expectedBehaviors.length) }

/-- A named behavior check, per the spec data model (section 3). -/
structure BehaviorCheck where
  name : String
  test : String → Bool

/-- The spec's full evaluation result (section 3). -/
structure EvalResult where
  success : Bool
  matchedCount : Nat
  totalCount : Nat
  matchedNames : List String
  errorMessage : Option String

/-- Modelled from the spec: the generalized
`evaluate(transcript, checks, threshold)` of section 4.1.  The source file
implements only the instance `checks = expectedBehaviors`, `threshold = 2`
inline (lines 79-80, 123-126); this definition follows the spec's contract:
filter the checks whose predicate holds on the transcript, count them, succeed
iff the count reaches the threshold, and produce the deterministic failure
message otherwise. -/
def evaluate (transcript : String) (checks : List BehaviorCheck)
    (threshold : Nat) : EvalResult :=
  let matched := checks.filter (fun c => c.test transcript)
  { success := decide (matched.length ≥ threshold),
    matchedCount := matched.length,
    totalCount := checks.length,
    matchedNames := matched.map (fun c => c.name),
    errorMessage :=
      if matched.length ≥ threshold then none
      else some (errorMessageFor matched.length checks.length) }

/-- The default checklist: the five source checks paired with their names. -/
def defaultChecks : List BehaviorCheck :=
  behaviorNames.zip expectedBehaviors |>.map (fun p => ⟨p.1, p.2⟩)

/-! ### Helper lemmas about substring containment -/

/-- The empty list is contained in every list. -/
theorem containsSub_nil (l : List Char) : containsSub [] l = true := by
  cases l <;> simp [containsSub, isPrefOf]

/-- A prefix of `t` is a prefix of `t ++ v`. -/
theorem isPrefOf_append (sub t v : List Char) (h : isPrefOf sub t = true) :
    isPrefOf sub (t ++ v) = true := by
  induction sub generalizing t with
  | nil => simp [isPrefOf]
  | cons a as ih =>
    cases t with
    | nil => simp [isPrefOf] at h
    | cons b bs =>
      simp only [isPrefOf, Bool.and_eq_true] at h ⊢
      exact ⟨h.1, ih bs h.2⟩

/-- Containment survives appending on the right. -/
theorem containsSub_append_right (sub t v : List Char)
    (h : containsSub sub t = true) : containsSub sub (t ++ v) = true := by
  induction t with
  | nil =>
    simp only [containsSub] at h
    cases sub with
    | nil => exact containsSub_nil v
    | cons a as => simp [isPrefOf] at h
  | cons c rest ih =>
    simp only [containsSub, Bool.or_eq_true] at h ⊢
    rcases h with h | h
    · exact Or.inl (isPrefOf_append sub (c :: rest) v h)
    · exact Or.inr (ih h)

/-- Containment survives prepending on the left. -/
theorem containsSub_append_left (sub u t : List Char)
    (h : containsSub sub t = true) : containsSub sub (u ++ t) = true := by
  induction u with
  | nil => exact h
  | cons c rest ih =>
    simp only [List.cons_append, containsSub, Bool.or_eq_true]
    exact Or.inr ih

/-- `includes` is monotone under extending the haystack on both sides. -/
theorem includes_extend (u t v sub : String) (h : includes t sub = true) :
    includes (u ++ t ++ v) sub = true := by
  unfold includes at h ⊢
  rw [String.data_append, String.data_append, List.append_assoc]
  exact containsSub_append_left _ _ _ (containsSub_append_right _ _ _ h)

/-- Every one of the five checks is monotone under extending the transcript. -/
theorem expectedBehaviors_extend (u t v : String) :
    ∀ b ∈ expectedBehaviors, b t = true → b (u ++ t ++ v) = true := by
  intro b hb
  fin_cases hb <;>
    · intro h
      simp only [Bool.or_eq_true, Bool.and_eq_true] at h ⊢
      first
      | rcases h with (h | h) | h
        · exact Or.inl (Or.inl (includes_extend u t v _ h))
        · exact Or.inl (Or.inr (includes_extend u t v _ h))
        · exact Or.inr (includes_extend u t v _ h)
      | rcases h with ⟨h1, h2 | h2⟩
        · exact ⟨includes_extend u t v _ h1, Or.inl (includes_extend u t v _ h2)⟩
        · exact ⟨includes_extend u t v _ h1, Or.inr (includes_extend u t v _ h2)⟩
      | rcases h with h | h
        · exact Or.inl (includes_extend u t v _ h)
        · exact Or.inr (includes_extend u t v _ h)
      | rcases h with ⟨h1, h2⟩
        exact ⟨includes_extend u t v _ h1, includes_extend u t v _ h2⟩

/-- The tests of the default checklist are exactly the five source checks. -/
theorem defaultChecks_tests : defaultChecks.map (fun c => c.test) = expectedBehaviors := rfl

/-- Filtering named checks built by zipping names onto tests matches filtering
the tests directly. -/
theorem zipChecks_filter_length (names : List String) (tests : List (String → Bool))
    (t : String) (h : names.length = tests.length) :
    (((names.zip tests).map (fun p => (⟨p.1, p.2⟩ : BehaviorCheck))).filter
        (fun c => c.test t)).length = (tests.filter (fun b => b t)).length := by
  induction names generalizing tests with
  | nil =>
    cases tests with
    | nil => rfl
    | cons b bs => simp at h
  | cons n ns ih =>
    cases tests with
    | nil => simp at h
    | cons b bs =>
      simp only [List.zip_cons_cons, List.map_cons]
      cases hbt : b t <;>
        simp [List.filter_cons, hbt, ih bs (by simpa using h)]

/-- The generalized evaluator instantiated at the default checklist and
threshold 2 agrees with the inline source logic. -/
theorem evaluate_defaultChecks_agrees (t : String) :
    (evaluate t defaultChecks 2).matchedCount = (behaviorMatches t).length ∧
      (evaluate t defaultChecks 2).success = success t := by
  have h := zipChecks_filter_length behaviorNames expectedBehaviors t rfl
  constructor
  · simpa [evaluate, defaultChecks, behaviorMatches] using h
  · simp [evaluate, defaultChecks, success, behaviorMatches, h]

/-! ### Claim theorems -/

/-- C1: for every transcript, the length of `behaviorMatches` equals the number
of the five behavior checks whose predicate is true on the transcript, and
`success` is true exactly when that count is at least the threshold 2. -/
theorem matchedCount_counts_and_threshold (t : String) :
    (behaviorMatches t).length = expectedBehaviors.countP (fun b => b t) ∧
      expectedBehaviors.length = 5 ∧
      success t = decide (2 ≤ (behaviorMatches t).length) := by
  refine ⟨?_, rfl, rfl⟩
  simp [behaviorMatches, List.countP_eq_length_filter]

/-- C2: on the transcript "Running dotnet build now. error CS1002 found."
exactly the first (build attempted) and third (error analysis) checks match,
`behaviorMatches` has length 2, and `success` is true at threshold 2. -/
theorem scenario3_evaluation :
    expectedBehaviors.map (fun b => b "Running dotnet build now. error CS1002 found.")
        = [true, false, true, false, false] ∧
      (behaviorMatches "Running dotnet build now. error CS1002 found.").length = 2 ∧
      success "Running dotnet build now. error CS1002 found." = true := by
  refine ⟨by decide, by decide, by decide⟩

/-- C3: the returned `errorMessage` is `none` when `success` is true, and
otherwise is the deterministic message determined by the matched count and the
total count alone. -/
theorem errorMessage_iff_failure (t : String) :
    (evaluateResponse t).errorMessage =
      (if (evaluateResponse t).success then none
       else some (errorMessageFor (behaviorMatches t).length
         expectedBehaviors.length)) := rfl

/-- C4: `matchedCount` is the number of checks whose predicate is true on the
transcript, and is invariant under permuting the checklist. -/
theorem evaluate_matchedCount_perm (t : String) (C Cp : List BehaviorCheck)
    (k : Nat) (h : C.Perm Cp) :
    (evaluate t C k).matchedCount = C.countP (fun c => c.test t) ∧
      (evaluate t C k).matchedCount = (evaluate t Cp k).matchedCount := by
  constructor
  · simp [evaluate, List.countP_eq_length_filter]
  · simp only [evaluate]
    rw [← List.countP_eq_length_filter, ← List.countP_eq_length_filter]
    exact h.countP_eq _

/-- Witness for C4 at a concrete two-element checklist and its swap. -/
theorem evaluate_matchedCount_perm_witness :
    (evaluate "dotnet build" [⟨"a", fun r => includes r "build"⟩,
        ⟨"b", fun r => includes r "fix"⟩] 1).matchedCount
      = (evaluate "dotnet build" [⟨"b", fun r => includes r "fix"⟩,
          ⟨"a", fun r => includes r "build"⟩] 1).matchedCount :=
  (evaluate_matchedCount_perm "dotnet build" _ _ 1 (List.Perm.swap _ _ [])).2

/-- C5: for a fixed transcript and checklist, `success` is antitone in the
threshold: success at the larger threshold implies success at the smaller. -/
theorem success_antitone_threshold (t : String) (C : List BehaviorCheck)
    (k1 k2 : Nat) (hk : k1 ≤ k2) (h : (evaluate t C k2).success = true) :
    (evaluate t C k1).success = true := by
  simp only [evaluate, ge_iff_le, decide_eq_true_eq] at h ⊢
  omega

/-- Witness for C5 at the default checklist, thresholds 1 and 2. -/
theorem success_antitone_threshold_witness :
    (evaluate "dotnet build in terminal" defaultChecks 1).success = true :=
  success_antitone_threshold "dotnet build in terminal" defaultChecks 1 2
    (by decide) (by decide)

/-- C6: the verdict returned by the scenario callback depends only on
`fullResponse`: any two invocations sharing the transcript return the same
`{ success, errorMessage }`, whatever the question, turn, index, command list,
confirmations, file trees or write outcome. -/
theorem verdict_depends_only_on_fullResponse (q1 q2 r : String)
    (t1 t2 i1 i2 : Nat) (c1 c2 f1 f2 g1 g2 : List String)
    (w1 w2 : Except String Unit) :
    (runScenarioCallback q1 r t1 i1 c1 f1 g1 w1).1
      = (runScenarioCallback q2 r t2 i2 c2 f2 g2 w2).1 := rfl

/-- C7: when the diagnostic write fails, the verdict is unchanged from the
successful-write run, and the failure is logged; it is never propagated. -/
theorem write_failure_is_caught (q r : String) (tu ix : Nat)
    (c f g : List String) (e : String) :
    (runScenarioCallback q r tu ix c f g (Except.error e)).1
        = (runScenarioCallback q r tu ix c f g (Except.ok ())).1 ∧
      ("[FILE-OUTPUT] Failed to write log: " ++ e)
        ∈ (runScenarioCallback q r tu ix c f g (Except.error e)).2.2 := by
  refine ⟨rfl, ?_⟩
  simp [runScenarioCallback, runCallbackWith]

/-- C8: the evaluator is total: it always yields a verdict, and a transcript
matching none of the checks yields the zero-matches failure verdict, not an
error. -/
theorem evaluator_total (t : String) :
    (∃ r, evaluateE t = Except.ok r) ∧
      ((∀ b ∈ expectedBehaviors, b t = false) →
        evaluateE t = Except.ok
          { success := false,
            errorMessage := some (errorMessageFor 0 expectedBehaviors.length) }) := by
  constructor
  · exact ⟨_, rfl⟩
  · intro h
    have hf : expectedBehaviors.filter (fun behavior => behavior t) = [] := by
      rw [List.filter_eq_nil_iff]
      intro a ha
      simp [h a ha]
    simp [evaluateE, hf, pure, Except.pure]

/-- Witness for C8 at the transcript "Looking at the file.", which matches no
check (also the empty transcript is covered by the totality conjunct). -/
theorem evaluator_total_witness :
    evaluateE "Looking at the file." = Except.ok
      { success := false,
        errorMessage := some (errorMessageFor 0 expectedBehaviors.length) } :=
  (evaluator_total "Looking at the file.").2 (by decide)

/-- C9: tool-call extraction on the given transcript yields exactly the two
captures in order, and the extractor's output has no influence on the verdict:
replacing it by any function leaves the returned result unchanged. -/
theorem toolCalls_diagnostic_only :
    toolCallMatches "run_in_terminal(cmd) then replace_string_in_file(a,b)"
        = ["run_in_terminal(", "replace_string_in_file("] ∧
      ∀ (tc : String → List String) (q r : String) (tu ix : Nat)
        (c f g : List String) (w : Except String Unit),
        (runCallbackWith tc q r tu ix c f g w).1
          = (runScenarioCallback q r tu ix c f g w).1 :=
  ⟨by decide, fun _ _ _ _ _ _ _ _ _ => rfl⟩

/-- C10: every check is monotone under extending the transcript on either
side, hence the match count never decreases and success is preserved. -/
theorem checks_monotone_extension (u t v : String) :
    (∀ b ∈ expectedBehaviors, b t = true → b (u ++ t ++ v) = true) ∧
      (behaviorMatches t).length ≤ (behaviorMatches (u ++ t ++ v)).length ∧
      (success t = true → success (u ++ t ++ v) = true) := by
  have hlen : (behaviorMatches t).length ≤ (behaviorMatches (u ++ t ++ v)).length := by
    simp only [behaviorMatches]
    rw [← List.countP_eq_length_filter, ← List.countP_eq_length_filter]
    exact List.countP_mono_left (expectedBehaviors_extend u t v)
  refine ⟨expectedBehaviors_extend u t v, hlen, ?_⟩
  intro h
  simp only [success, ge_iff_le, decide_eq_true_eq] at h ⊢
  omega

/-- Witness for C10: prepending and appending text preserves success. -/
theorem checks_monotone_extension_witness :
    success ("PRE " ++ "dotnet build in terminal" ++ " POST") = true :=
  (checks_monotone_extension "PRE " "dotnet build in terminal" " POST").2.2
    (by decide)
